import Mathlib

/-!
Verification of the GTpo utility layer (`src/GTpo/src/gtpoUtils.h`).

The header supplies three things:
  * identity-based equality and hashing for `std::weak_ptr<T>`
    (`gtpo::compare_weak_ptr`, plus the `std::equal_to` and `std::hash`
    specializations for `std::weak_ptr`);
  * `gtpo::assert_throw` together with `gtpo::bad_topology_error`;
  * the empty extension-point protocol `gtpo::ContainerConfig`.

We embed the standard-library semantics of `std::weak_ptr` that these
templates are instantiated over: every weak pointer is either empty or
bound to a control block (ownership group), identified here by a natural
number.  `owner_before` is the strict order on ownership groups mandated
by the C++ standard; empty pointers form the least group.  `lock()`
resolves a live pointer to the stored object address and yields the null
shared pointer otherwise, and `std::hash<std::shared_ptr<T>>` is a
deterministic (implementation-defined) function of the stored raw
pointer.  All implementation-defined data (which blocks are live, what
address each block stores, the raw-pointer hash) is packaged in a
`PtrWorld` parameter so that the theorems quantify over every such
runtime state.
-/

namespace gtpo

/-- Implementation-defined runtime state of the shared-ownership machinery:
`liveOf c` tells whether control block `c` still has a positive use count,
`addrOf c` is the object address stored in control block `c`, and
`hashPtr` is the raw-pointer hash underlying `std::hash<std::shared_ptr<T>>`
(with `none` standing for the null pointer). -/
structure PtrWorld where
  liveOf : Nat → Bool
  addrOf : Nat → Nat
  hashPtr : Option Nat → Nat

/-- Model of `std::weak_ptr<T>`: `ctrl = none` is an empty (default
constructed) weak pointer, `ctrl = some c` is bound to control block `c`.
The `tag` field distinguishes distinct weak-pointer objects that reference
the same entity; it has no semantic role in any operation below. -/
structure WeakPtr where
  ctrl : Option Nat
  tag : Nat
deriving DecidableEq

/-- Ownership-group key used by `owner_before`: the empty group sorts first,
control block `c` is keyed by `c + 1`. -/
def ownerKey : Option Nat → Nat
  | none => 0
  | some c => c + 1

/-- The `std::weak_ptr::owner_before` member: the strict weak order over
ownership groups required by the C++ standard, under which two pointers are
equivalent exactly when they share a control block. -/
def owner_before (l r : WeakPtr) : Bool :=
  ownerKey l.ctrl < ownerKey r.ctrl

/-- The `std::weak_ptr::expired` member: true when the pointer is empty or
its control block's use count has dropped to zero. -/
def expired (W : PtrWorld) (w : WeakPtr) : Bool :=
  match w.ctrl with
  | none => true
  | some c => !W.liveOf c

/-- The `std::weak_ptr::lock` member, returning the stored raw pointer of
the resulting `std::shared_ptr` (`none` is the null shared pointer, obtained
whenever the weak pointer is empty or expired). -/
def lock (W : PtrWorld) (w : WeakPtr) : Option Nat :=
  match w.ctrl with
  | none => none
  | some c => if W.liveOf c then some (W.addrOf c) else none

/-- Source lines 73-75: `gtpo::compare_weak_ptr` returns
`!left.owner_before(right) && !right.owner_before(left)`. -/
def compare_weak_ptr (left right : WeakPtr) : Bool :=
  !owner_before left right && !owner_before right left

/-- Source lines 126-133: the `std::equal_to<std::weak_ptr<T>>`
specialization, whose `operator()` returns
`!left.owner_before(right) && !right.owner_before(left)`. -/
def equal_to_weak (left right : WeakPtr) : Bool :=
  !owner_before left right && !owner_before right left

/-- Hash of a strong reference, `std::hash<std::shared_ptr<T>>`: per the
C++ standard this is the raw-pointer hash of `p.get()`. -/
def hash_shared (W : PtrWorld) (p : Option Nat) : Nat :=
  W.hashPtr p

/-- Source lines 113-120: the `std::hash<std::weak_ptr<T>>` specialization,
whose `operator()` returns `std::hash<std::shared_ptr<T>>()(key.lock())`. -/
def hash_weak (W : PtrWorld) (key : WeakPtr) : Nat :=
  hash_shared W (lock W key)

/-- Two weak pointers belong to the same ownership group when they are bound
to the same control block (or are both empty).  This is the model-level
notion of identity the spec calls the "ownership group". -/
def sameOwnershipGroup (a b : WeakPtr) : Bool :=
  a.ctrl == b.ctrl

/-- Taking a fresh weak reference from a shared entity owned through control
block `c`: the resulting weak pointer is bound to `c`, carrying an arbitrary
object tag `t`. -/
def weakFrom (c : Nat) (t : Nat) : WeakPtr :=
  ⟨some c, t⟩

/-- Source lines 50-58: `gtpo::bad_topology_error`, a `std::runtime_error`
carrying a diagnostic string retrievable through `what()`. -/
structure bad_topology_error where
  what : String
deriving DecidableEq

/-- Source line 57: the default constructor of `bad_topology_error`
delegates to the string constructor with the generic message. -/
def bad_topology_error.default : bad_topology_error :=
  ⟨"GTpo topology unrecoverable error."⟩

/-- Source lines 66-69: `gtpo::assert_throw<E>(expr, message)` throws
`E(message)` when `expr` is false and otherwise does nothing.  The template
parameter `E` (any error type constructible from a diagnostic string) is
embedded as the constructor `mkE`; throwing is embedded as `Except.error`. -/
def assert_throw {E : Type} (mkE : String → E) (expr : Bool) (message : String) : Except E Unit :=
  if !expr then Except.error (mkE message) else Except.ok ()

/-- Source line 67: the declared default for the `message` parameter is
`std::string{ "" }`, so a call that supplies no message runs `assert_throw`
with the empty string. -/
def assert_throw_default {E : Type} (mkE : String → E) (expr : Bool) : Except E Unit :=
  assert_throw mkE expr ""

/-- Source lines 87-105: the primary templates `ContainerConfig::insert<T>`
and `ContainerConfig::remove<T>` have empty bodies (`struct insert { };`),
so the protocol level supplies no callable operation; specializations (out
of scope here) would supply one.  The available implementation is therefore
`none`, as opposed to `some f` for any function `f`. -/
def ContainerConfig.insertImpl (T : Type) : Option (List T → T → List T) :=
  none

/-- Source lines 94-104: the primary template `ContainerConfig::remove<T>`
likewise has an empty body and supplies no callable operation. -/
def ContainerConfig.removeImpl (T : Type) : Option (List T → T → List T) :=
  none

/-- Concrete runtime state used to witness the theorems below: control
block 0 is live, every other block has expired, block `c` stores address
`c + 41`, and the raw-pointer hash sends the null pointer to 7 and address
`a` to `a`. -/
def sampleWorld : PtrWorld :=
  ⟨fun c => c == 0, fun c => c + 41, fun p => match p with | none => 7 | some a => a⟩

theorem ownerKey_inj {x y : Option Nat} (h : ownerKey x = ownerKey y) : x = y := by
  cases x <;> cases y <;> simp_all [ownerKey]

theorem equal_to_weak_eq_true_iff (a b : WeakPtr) :
    equal_to_weak a b = true ↔ a.ctrl = b.ctrl := by
  simp only [equal_to_weak, owner_before, Bool.and_eq_true, Bool.not_eq_true',
    decide_eq_false_iff_not, Nat.not_lt]
  constructor
  · rintro ⟨h1, h2⟩
    exact ownerKey_inj (Nat.le_antisymm h2 h1)
  · rintro h
    rw [h]
    exact ⟨Nat.le_refl _, Nat.le_refl _⟩

theorem lock_congr (W : PtrWorld) (a b : WeakPtr) (h : a.ctrl = b.ctrl) :
    lock W a = lock W b := by
  unfold lock
  rw [h]

theorem lock_eq_none_of_expired (W : PtrWorld) (w : WeakPtr) (h : expired W w = true) :
    lock W w = none := by
  cases hc : w.ctrl with
  | none => simp [lock, hc]
  | some c =>
    simp only [expired, hc, Bool.not_eq_true'] at h
    simp [lock, hc, h]

/-- C1: for every pair of non-expired weak references to shared entities of
the same type, if the weak-identity equality (the `std::equal_to` over
`std::weak_ptr`) returns true on them, then the weak-identity hash (the
`std::hash` over `std::weak_ptr`) returns the same value on both. -/
theorem equal_weak_hash_consistent (W : PtrWorld) (a b : WeakPtr)
    (ha : expired W a = false) (hb : expired W b = false)
    (h : equal_to_weak a b = true) :
    hash_weak W a = hash_weak W b := by
  unfold hash_weak
  rw [lock_congr W a b ((equal_to_weak_eq_true_iff a b).mp h)]

theorem equal_weak_hash_consistent_witness :
    expired sampleWorld ⟨some 0, 0⟩ = false ∧ expired sampleWorld ⟨some 0, 1⟩ = false ∧
    equal_to_weak ⟨some 0, 0⟩ ⟨some 0, 1⟩ = true ∧
    hash_weak sampleWorld ⟨some 0, 0⟩ = hash_weak sampleWorld ⟨some 0, 1⟩ :=
  ⟨by decide, by decide, by decide,
    equal_weak_hash_consistent sampleWorld ⟨some 0, 0⟩ ⟨some 0, 1⟩
      (by decide) (by decide) (by decide)⟩

/-- C2: on non-expired weak references the weak-identity equality is an
equivalence relation: it is reflexive, symmetric as a boolean function, and
transitive. -/
theorem equal_to_weak_equivalence (W : PtrWorld) (a b c : WeakPtr)
    (ha : expired W a = false) (hb : expired W b = false) (hc : expired W c = false) :
    equal_to_weak a a = true ∧
    equal_to_weak a b = equal_to_weak b a ∧
    (equal_to_weak a b = true → equal_to_weak b c = true → equal_to_weak a c = true) := by
  refine ⟨(equal_to_weak_eq_true_iff a a).mpr rfl, ?_, ?_⟩
  · simp only [equal_to_weak]
    exact Bool.and_comm _ _
  · intro h1 h2
    rw [equal_to_weak_eq_true_iff] at h1 h2 ⊢
    exact h1.trans h2

theorem equal_to_weak_equivalence_witness :
    equal_to_weak ⟨some 2, 0⟩ ⟨some 2, 0⟩ = true ∧
    equal_to_weak ⟨some 2, 0⟩ ⟨some 3, 1⟩ = equal_to_weak ⟨some 3, 1⟩ ⟨some 2, 0⟩ :=
  let h := equal_to_weak_equivalence
    ⟨fun _ => true, fun c => c, fun _ => 0⟩ ⟨some 2, 0⟩ ⟨some 3, 1⟩ ⟨some 2, 0⟩
    (by decide) (by decide) (by decide)
  ⟨h.1, h.2.1⟩

/-- C3: for non-expired weak references the weak-identity equality
(`compare_weak_ptr` and the `std::equal_to` specialization alike) returns
true exactly when the two references belong to the same ownership group,
and it is computed by applying `owner_before` symmetrically in both
directions and requiring that neither side orders before the other. -/
theorem equal_to_weak_same_ownership_group (W : PtrWorld) (a b : WeakPtr)
    (ha : expired W a = false) (hb : expired W b = false) :
    (compare_weak_ptr a b = true ↔ sameOwnershipGroup a b = true) ∧
    (equal_to_weak a b = true ↔ sameOwnershipGroup a b = true) ∧
    compare_weak_ptr a b = (!owner_before a b && !owner_before b a) := by
  have hgroup : equal_to_weak a b = true ↔ sameOwnershipGroup a b = true := by
    rw [equal_to_weak_eq_true_iff]
    simp [sameOwnershipGroup]
  exact ⟨hgroup, hgroup, rfl⟩

theorem equal_to_weak_same_ownership_group_witness :
    (compare_weak_ptr ⟨some 4, 0⟩ ⟨some 4, 9⟩ = true ↔
      sameOwnershipGroup ⟨some 4, 0⟩ ⟨some 4, 9⟩ = true) ∧
    (compare_weak_ptr ⟨some 4, 0⟩ ⟨some 4, 9⟩ =
      (!owner_before ⟨some 4, 0⟩ ⟨some 4, 9⟩ && !owner_before ⟨some 4, 9⟩ ⟨some 4, 0⟩)) :=
  let h := equal_to_weak_same_ownership_group
    ⟨fun _ => true, fun c => c, fun _ => 0⟩ ⟨some 4, 0⟩ ⟨some 4, 9⟩ (by decide) (by decide)
  ⟨h.1, h.2.2⟩

/-- C4: for every boolean expression and every message string (the empty
string included), `assert_throw` raises exactly when the expression is
false; a true expression has no effect and a false one raises an error
whose diagnostic equals the supplied message. -/
theorem assert_throw_spec (expr : Bool) (message : String) :
    (assert_throw bad_topology_error.mk expr message = Except.ok () ↔ expr = true) ∧
    (expr = false →
      assert_throw bad_topology_error.mk expr message = Except.error ⟨message⟩) := by
  cases expr <;> simp [assert_throw]

theorem assert_throw_spec_witness :
    (assert_throw bad_topology_error.mk true "msg" = Except.ok () ↔ True) ∧
    assert_throw bad_topology_error.mk false "" = Except.error ⟨""⟩ :=
  ⟨by simp [(assert_throw_spec true "msg").1], (assert_throw_spec false "").2 rfl⟩

/-- C5 counterexample: calling `assert_throw` with the message argument
defaulted and a false expression raises an error whose diagnostic is the
empty string, which differs from the generic
"GTpo topology unrecoverable error." text. -/
theorem assert_throw_default_generic_counterexample :
    assert_throw_default bad_topology_error.mk false = Except.error ⟨""⟩ ∧
    (⟨""⟩ : bad_topology_error) ≠ ⟨"GTpo topology unrecoverable error."⟩ :=
  ⟨rfl, by decide⟩

/-- C5 amended: calling `assert_throw(false)` with no message argument
raises an error whose diagnostic equals the empty string, the declared
default of the `message` parameter; the generic
"GTpo topology unrecoverable error." text belongs only to the default
constructor of `bad_topology_error`, which `assert_throw` never invokes. -/
theorem assert_throw_default_empty_message :
    assert_throw_default bad_topology_error.mk false = Except.error ⟨""⟩ ∧
    bad_topology_error.default.what = "GTpo topology unrecoverable error." :=
  ⟨rfl, rfl⟩

/-- C6: for every weak reference to a live shared entity, the weak-identity
hash equals the result of first resolving the weak reference with `lock`
and then applying the strong reference's standard hash to the result. -/
theorem hash_weak_via_lock (W : PtrWorld) (a : WeakPtr) (h : expired W a = false) :
    hash_weak W a = hash_shared W (lock W a) :=
  rfl

theorem hash_weak_via_lock_witness :
    expired sampleWorld ⟨some 0, 3⟩ = false ∧
    hash_weak sampleWorld ⟨some 0, 3⟩ = hash_shared sampleWorld (lock sampleWorld ⟨some 0, 3⟩) :=
  ⟨by decide, hash_weak_via_lock sampleWorld ⟨some 0, 3⟩ (by decide)⟩

/-- C7: for a live shared entity owned through control block `c`, a weak
reference taken from it and a fresh weak reference also taken from it
compare equal under the weak-identity equality and hash identically. -/
theorem weak_roundtrip_same_entity (W : PtrWorld) (c t1 t2 : Nat)
    (h : W.liveOf c = true) :
    equal_to_weak (weakFrom c t1) (weakFrom c t2) = true ∧
    hash_weak W (weakFrom c t1) = hash_weak W (weakFrom c t2) := by
  have heq : equal_to_weak (weakFrom c t1) (weakFrom c t2) = true :=
    (equal_to_weak_eq_true_iff _ _).mpr rfl
  refine ⟨heq, ?_⟩
  unfold hash_weak
  rw [lock_congr W (weakFrom c t1) (weakFrom c t2) rfl]

theorem weak_roundtrip_same_entity_witness :
    sampleWorld.liveOf 0 = true ∧
    equal_to_weak (weakFrom 0 1) (weakFrom 0 2) = true ∧
    hash_weak sampleWorld (weakFrom 0 1) = hash_weak sampleWorld (weakFrom 0 2) :=
  let h := weak_roundtrip_same_entity sampleWorld 0 1 2 (by decide)
  ⟨by decide, h.1, h.2⟩

/-- C8: the `ContainerConfig` protocol provides no implementation for
`insert` or `remove` at the protocol level: the primary templates have
empty bodies, so no callable operation exists there — in particular the
protocol does not supply a silent no-op. -/
theorem containerConfig_no_default_impl (T : Type) :
    ContainerConfig.insertImpl T = none ∧
    ContainerConfig.removeImpl T = none ∧
    (∀ f : List T → T → List T, ContainerConfig.insertImpl T ≠ some f) ∧
    (∀ f : List T → T → List T, ContainerConfig.removeImpl T ≠ some f) := by
  refine ⟨rfl, rfl, ?_, ?_⟩ <;> intro f h <;> exact Option.noConfusion h

theorem containerConfig_no_default_impl_witness :
    ContainerConfig.insertImpl Nat = none ∧
    ContainerConfig.insertImpl Nat ≠ some (fun l _ => l) :=
  ⟨(containerConfig_no_default_impl Nat).1,
    (containerConfig_no_default_impl Nat).2.2.1 (fun l _ => l)⟩

/-- C9: for every pair of weak references of the same pointee type,
`gtpo::compare_weak_ptr` and the `std::equal_to` specialization over
`std::weak_ptr` return the same boolean result: the two equality entry
points compute the same function. -/
theorem compare_weak_ptr_eq_equal_to (a b : WeakPtr) :
    compare_weak_ptr a b = equal_to_weak a b :=
  rfl

/-- C10: for every expired or empty weak reference, the weak-identity hash
is defined and equals the hash of the null strong reference, so any two
expired or empty weak references of the same pointee type hash alike. -/
theorem hash_weak_expired_defined (W : PtrWorld) (a b : WeakPtr)
    (ha : expired W a = true) (hb : expired W b = true) :
    hash_weak W a = hash_shared W none ∧ hash_weak W a = hash_weak W b := by
  unfold hash_weak
  rw [lock_eq_none_of_expired W a ha, lock_eq_none_of_expired W b hb]
  exact ⟨rfl, rfl⟩

theorem hash_weak_expired_defined_witness :
    expired sampleWorld ⟨some 1, 0⟩ = true ∧ expired sampleWorld ⟨none, 5⟩ = true ∧
    hash_weak sampleWorld ⟨some 1, 0⟩ = hash_shared sampleWorld none ∧
    hash_weak sampleWorld ⟨some 1, 0⟩ = hash_weak sampleWorld ⟨none, 5⟩ :=
  let h := hash_weak_expired_defined sampleWorld ⟨some 1, 0⟩ ⟨none, 5⟩ (by decide) (by decide)
  ⟨by decide, by decide, h.1, h.2⟩

end gtpo
